import Mathlib

/-!
Verification development for the ESPER email-swarm scoring/fusion/routing core.

The Python source (`model.py`, `router.py`, `agents.py`) is shallowly embedded:
Python floats become exact rationals (`ℚ`), byte strings become `List Nat`,
insertion-ordered dictionaries become association lists in insertion order,
and raised exceptions become `Except`/`Option` error values.  The wall-clock
`timestamp` field of a packet is omitted (real time is outside the model and
no verified property mentions it).
-/

namespace Esper

/-- `max(0.0, min(1.0, x))`, the clamp used throughout the source. -/
def clamp01 (x : ℚ) : ℚ := max 0 (min 1 x)

/-- `max(-1.0, min(1.0, x))`, the clamp used for the warmth dimension. -/
def clampSym (x : ℚ) : ℚ := max (-1) (min 1 x)

/-- `IntentSpine` dataclass (model.py): four signal dimensions plus confidence. -/
structure IntentSpine where
  urgency : ℚ
  importance : ℚ
  warmth : ℚ
  tension : ℚ
  confidence : ℚ
deriving DecidableEq, Repr

/-- `IntentSpine.__post_init__` (model.py lines 31-37): the constructor clamps
every dimension to its declared range (`[0,1]`, warmth `[-1,1]`). -/
def IntentSpine.post_init (urgency importance warmth tension confidence : ℚ) : IntentSpine where
  urgency := clamp01 urgency
  importance := clamp01 importance
  warmth := clampSym warmth
  tension := clamp01 tension
  confidence := clamp01 confidence

/-- `AffectLattice` dataclass (model.py): six emotional scalars. -/
structure AffectLattice where
  joy : ℚ
  sorrow : ℚ
  anger : ℚ
  fear : ℚ
  trust : ℚ
  surprise : ℚ
deriving DecidableEq, Repr

/-- `AffectLattice.__post_init__`: clamp all six values to `[0,1]`. -/
def AffectLattice.post_init (joy sorrow anger fear trust surprise : ℚ) : AffectLattice where
  joy := clamp01 joy
  sorrow := clamp01 sorrow
  anger := clamp01 anger
  fear := clamp01 fear
  trust := clamp01 trust
  surprise := clamp01 surprise

/-- `VSEPacket` dataclass (model.py).  `semantic_motif` is a byte string,
modelled as a list of byte values.  The `timestamp` field (wall-clock time,
unused by any routing logic) is omitted from the embedding. -/
structure VSEPacket where
  agent_role : String
  intent_spine : IntentSpine
  affect_lattice : AffectLattice
  semantic_motif : List Nat
  gloss : String
  confidence : ℚ
deriving DecidableEq, Repr

/-- `EmailMetadata` dataclass (model.py). -/
structure EmailMetadata where
  sender : String
  subject : String
  date : Option String := none
  message_id : Option String := none
  «to» : Option String := none
deriving DecidableEq, Repr

/-- `EmailAnalysis` dataclass (model.py): the final analysis record. -/
structure EmailAnalysis where
  icon : String
  gloss : String
  routing_folder : String
  routing_color : String
  routing_priority : String
  action : String
  topic : String
  urgency : ℚ
  importance : ℚ
  warmth : ℚ
  tension : ℚ
  metadata : EmailMetadata
  packets : List (String × VSEPacket)
deriving DecidableEq, Repr

/-! ### String primitives

Python `in`, `str.count`, `str.lower`, `str.startswith` and `' '.join` are
modelled directly on character lists. -/

/-- `startsL n h` : does the haystack `h` start with the needle `n`
(Python `h.startswith(n)` / anchored match of a literal)? -/
def startsL : List Char → List Char → Bool
  | [], _ => true
  | _ :: _, [] => false
  | a :: as, b :: bs => a = b && startsL as bs

/-- `containsL n h` : does `n` occur as a contiguous substring of `h`
(Python `n in h`)? -/
def containsL (n : List Char) : List Char → Bool
  | [] => startsL n []
  | c :: t => startsL n (c :: t) || containsL n t

/-- Python `needle in haystack` on strings. -/
def strContains (haystack needle : String) : Bool :=
  containsL needle.data haystack.data

/-- Python `haystack.count(needle)`: number of non-overlapping occurrences,
scanning left to right.  Fuel-indexed; the fuel is the haystack length + 1. -/
def countSubstrAux : Nat → List Char → List Char → Nat
  | 0, _, _ => 0
  | fuel + 1, n, h =>
    if startsL n h then
      match h with
      | [] => 1
      | _ :: _ => 1 + countSubstrAux fuel n (h.drop (max n.length 1))
    else
      match h with
      | [] => 0
      | _ :: rest => countSubstrAux fuel n rest

/-- Python `haystack.count(needle)`. -/
def countSubstr (n h : List Char) : Nat := countSubstrAux (h.length + 1) n h

/-- Python `str.lower()` (ASCII case mapping; the embedding does not model
Unicode case folds, which no keyword table uses). -/
def lowerStr (s : String) : String := String.mk (s.data.map Char.toLower)

/-- Python `' '.join(parts)`. -/
def joinSpace : List String → String
  | [] => ""
  | [g] => g
  | g :: g2 :: gs => g ++ " " ++ joinSpace (g2 :: gs)

/-- Python `\s` / `str.strip` whitespace class (ASCII). -/
def isPySpace (c : Char) : Bool :=
  c = ' ' || c = '\t' || c = '\n' || c = '\x0b' || c = '\x0c' || c = '\r'

/-- Python `str.strip()`. -/
def pyStrip (s : String) : String :=
  String.mk ((((s.data.dropWhile isPySpace).reverse).dropWhile isPySpace).reverse)

/-! ### PICTOGRAM-256 glyphs (model.py) -/

/-- `PICTOGRAM_GLYPHS` (model.py): the fixed 64-symbol table. -/
def PICTOGRAM_GLYPHS : List Char :=
  ['●', '○', '◐', '◑', '◒', '◓', '◔', '◕',
   '◆', '◇', '◈', '◉', '◊', '⬙', '◌', '◍',
   '↑', '↓', '←', '→', '↖', '↗', '↘', '↙',
   '⟲', '⟳', '↺', '↻', '⤴', '⤵', '⤶', '⤷',
   '∿', '∼', '≈', '≋', '∽', '∾', '≃', '≅',
   '∧', '∨', '⊻', '⊼', '⊽', '⊕', '⊖', '⊗',
   '⚡', '⚑', '⚐', '⚠', '⚛', '⚝', '⚞', '⚟',
   '♠', '♣', '♥', '♦', '♤', '♧', '♡', '♢']

/-- `glyph_from_hash` (model.py lines 254-288).  The source pads a motif
shorter than 3 bytes with zero bytes, then reads bytes 0, 8 and 16.  A Python
`IndexError` (raised whenever the padded motif is still shorter than 17
bytes) is modelled as `none`. -/
def glyph_from_hash (motif : List Nat) : Option String :=
  let motif := if motif.length < 3 then motif ++ List.replicate (3 - motif.length) 0 else motif
  match motif[0]?, motif[8]?, motif[16]? with
  | some b0, some b8, some b16 =>
    some (String.mk
      [PICTOGRAM_GLYPHS.getD (b0 % PICTOGRAM_GLYPHS.length) ' ',
       PICTOGRAM_GLYPHS.getD (b8 % PICTOGRAM_GLYPHS.length) ' ',
       PICTOGRAM_GLYPHS.getD (b16 % PICTOGRAM_GLYPHS.length) ' '])
  | _, _, _ => none

/-! ### Benevolent fusion (router.py) -/

/-- The democratic-averaging step of `benevolence_clamp` (router.py lines
49-55): each fused dimension is the sum over all packets divided by the
packet count. -/
def fusion_averages (packets : List (String × VSEPacket)) : ℚ × ℚ × ℚ × ℚ :=
  let n : ℚ := packets.length
  ((packets.map (fun p => p.2.intent_spine.urgency)).sum / n,
   (packets.map (fun p => p.2.intent_spine.importance)).sum / n,
   (packets.map (fun p => p.2.intent_spine.warmth)).sum / n,
   (packets.map (fun p => p.2.intent_spine.tension)).sum / n)

/-- `benevolence_clamp` (router.py lines 27-69).  The `ValueError` raised on
an empty packet mapping is modelled as `Except.error` carrying the source's
message. -/
def benevolence_clamp (packets : List (String × VSEPacket)) :
    Except String (ℚ × ℚ × ℚ × ℚ) :=
  if packets.isEmpty then
    .error "Cannot perform benevolent fusion on empty packet set"
  else
    let (urgency, importance, warmth, tension) := fusion_averages packets
    let tension := if warmth > 0.6 ∧ tension > 0.7 then (tension + warmth) / 2 else tension
    .ok (clamp01 urgency, clamp01 importance, clampSym warmth, clamp01 tension)

/-! ### Semantic routing (router.py) -/

/-- `ROUTING_CATEGORIES[...]['color']` (router.py lines 77-108). -/
def category_color : String → String
  | "1-URGENT-NOW" => "#FF3B30"
  | "2-Important" => "#FF9500"
  | "3-Action-Required" => "#FFCC00"
  | "4-Read-Later" => "#34C759"
  | _ => "#8E8E93"

/-- `ROUTING_CATEGORIES[...]['priority']` (router.py lines 77-108). -/
def category_priority : String → String
  | "1-URGENT-NOW" => "critical"
  | "2-Important" => "high"
  | "3-Action-Required" => "medium"
  | _ => "low"

/-- Newsletter/bulk-mail detection inside `route_email` (router.py lines
149-162): glosses are space-joined and lowercased, then six substring tests
are disjoined. -/
def is_newsletter (packets : List (String × VSEPacket)) (metadata : EmailMetadata) : Bool :=
  let body_text := lowerStr (joinSpace (packets.map (fun p => p.2.gloss)))
  let subject_lower := lowerStr metadata.subject
  let sender_lower := lowerStr metadata.sender
  strContains body_text "newsletter" ||
  strContains body_text "unsubscribe" ||
  strContains subject_lower "digest" ||
  (strContains subject_lower "weekly" && strContains subject_lower "update") ||
  strContains sender_lower "newsletter@" ||
  strContains sender_lower "noreply@"

/-- The threshold cascade of `route_email` (router.py lines 164-189):
five conditions evaluated in this exact order, first match wins. -/
def select_folder (urgency importance : ℚ) (newsletter : Bool) : String :=
  if urgency > 0.7 then "1-URGENT-NOW"
  else if importance > 0.6 then "2-Important"
  else if newsletter then "4-Read-Later"
  else if urgency > 0.4 ∨ importance > 0.3 then "3-Action-Required"
  else "5-Reference"

/-- The benevolence override of `route_email` (router.py lines 191-196):
after category selection, a 5-Reference result with fused warmth above 0.6
is reassigned to 3-Action-Required. -/
def apply_benevolence_override (warmth : ℚ) (folder : String) : String :=
  if warmth > 0.6 ∧ folder = "5-Reference" then "3-Action-Required" else folder

/-- Python `list(dict.fromkeys(l))`: deduplicate keeping first occurrences. -/
def dedupeKeepFirst (l : List String) : List String :=
  l.foldl (fun acc x => if acc.contains x then acc else acc ++ [x]) []

/-- Topic extraction inside `_generate_unified_gloss` (router.py lines
273-277): the text after the first colon, stripped, defaulting to
"communication". -/
def extract_topic (topic_gloss : String) : String :=
  if strContains topic_gloss ":" then
    pyStrip (String.mk ((topic_gloss.data.dropWhile (fun c => c ≠ ':')).drop 1))
  else "communication"

/-- `_generate_unified_gloss` (router.py lines 227-287).  The `packets`
parameter of the source function is unused by its body and dropped here. -/
def generate_unified_gloss (urgency importance warmth tension : ℚ)
    (topic_gloss : String) : String :=
  let tone_descriptors :=
    (if warmth > 0.5 then ["warm"] else if warmth < -0.3 then ["cold"] else []) ++
    (if urgency > 0.7 then ["urgent"] else if urgency > 0.4 then ["time-sensitive"] else []) ++
    (if importance > 0.6 then ["significant"] else if importance > 0.3 then ["important"] else []) ++
    (if tension > 0.5 then ["tense"] else [])
  let topic := extract_topic topic_gloss
  let tone_str :=
    if tone_descriptors.isEmpty then "routine"
    else String.intercalate " and " (dedupeKeepFirst tone_descriptors)
  "A " ++ tone_str ++ " message about " ++ topic

/-- `route_email` (router.py lines 111-224).  Color and priority are set in
each branch of the source to the table entry of the folder assigned there;
the embedding recovers them from the final folder, which agrees branch by
branch.  A Python `IndexError` escaping `glyph_from_hash` is modelled as an
`Except.error`. -/
def route_email (packets : List (String × VSEPacket)) (metadata : EmailMetadata) :
    Except String EmailAnalysis :=
  match benevolence_clamp packets with
  | .error e => .error e
  | .ok (urgency, importance, warmth, tension) =>
    let combined_motif := (packets.map (fun p => p.2.semantic_motif)).flatten
    match glyph_from_hash (combined_motif.take 32) with
    | none => .error "IndexError in glyph_from_hash"
    | some icon =>
      let topic_gloss := match packets.lookup "topic" with
        | some p => p.gloss
        | none => "Primary topic: general"
      let action_gloss := match packets.lookup "action" with
        | some p => p.gloss
        | none => "No action required"
      let nl := is_newsletter packets metadata
      let folder := apply_benevolence_override warmth (select_folder urgency importance nl)
      let gloss := generate_unified_gloss urgency importance warmth tension topic_gloss
      .ok { icon := icon
            gloss := gloss
            routing_folder := folder
            routing_color := category_color folder
            routing_priority := category_priority folder
            action := action_gloss
            topic := topic_gloss
            urgency := urgency
            importance := importance
            warmth := warmth
            tension := tension
            metadata := metadata
            packets := packets }

/-! ### A small Python-`re` style matcher

The agents use `re.findall` over a handful of fixed patterns.  The embedding
gives those patterns an AST and a continuation-passing backtracking matcher
with Python semantics: ordered alternation, greedy quantifiers, leftmost
scan, non-overlapping counting.  The matcher is fuel-indexed for
termination; the fuel supplied at call sites is far larger than any
backtracking path for these fixed, star-guarded patterns. -/

/-- Character classes appearing in the source's patterns. -/
inductive CharClass where
  | digit
  | space
  | word
  | oneOf (cs : List Char)
deriving Repr, DecidableEq

/-- Membership test of a character class (`\d`, `\s`, `\w`, `[...]`). -/
def CharClass.matchesChar : CharClass → Char → Bool
  | .digit, c => c.isDigit
  | .space, c => isPySpace c
  | .word, c => c.isAlphanum || c = '_'
  | .oneOf cs, c => cs.contains c

/-- Regular-expression AST covering the constructs used by the source. -/
inductive RE where
  | cls (c : CharClass)
  | lit (s : String)
  | seq (rs : List RE)
  | alt (rs : List RE)
  | opt (r : RE)
  | star (r : RE)
  | plus (r : RE)
  | rep (r : RE) (lo : Nat) (hi : Nat)
  | eos
deriving Repr

/-- Backtracking matcher in continuation-passing style.  A successful parse
applies `k` to the unconsumed input; the first success in Python's
backtracking order (ordered alternation, greedy quantifiers) wins.  `eos`
models `$` without `re.MULTILINE`: end of input, or just before one final
newline. -/
def matchRE : Nat → RE → List Char → (List Char → Option (List Char)) → Option (List Char)
  | 0, _, _, _ => none
  | fuel + 1, r, s, k =>
    match r with
    | .cls c =>
      match s with
      | [] => none
      | ch :: rest => if c.matchesChar ch then k rest else none
    | .lit str => if startsL str.data s then k (s.drop str.data.length) else none
    | .seq [] => k s
    | .seq (r1 :: rs) => matchRE fuel r1 s (fun s2 => matchRE fuel (.seq rs) s2 k)
    | .alt [] => none
    | .alt (r1 :: rs) =>
      match matchRE fuel r1 s k with
      | some res => some res
      | none => matchRE fuel (.alt rs) s k
    | .opt r1 =>
      match matchRE fuel r1 s k with
      | some res => some res
      | none => k s
    | .star r1 =>
      match matchRE fuel r1 s (fun s2 =>
          if s2.length < s.length then matchRE fuel (.star r1) s2 k else k s2) with
      | some res => some res
      | none => k s
    | .plus r1 => matchRE fuel (.seq [r1, .star r1]) s k
    | .rep r1 lo hi =>
      matchRE fuel (.seq (List.replicate lo r1 ++ List.replicate (hi - lo) (.opt r1))) s k
    | .eos =>
      match s with
      | [] => k s
      | ['\n'] => k s
      | _ => none

/-- Fuel budget for one anchored match attempt. -/
def reFuel (s : List Char) : Nat := 200 * (s.length + 2)

/-- Attempt a match anchored at the start of `s`; returns the unconsumed
suffix of the first (Python-order) match. -/
def matchAt (r : RE) (s : List Char) : Option (List Char) :=
  matchRE (reFuel s) r s some

/-- Scanning loop of `len(re.findall(pattern, s))`: try each start position
left to right, count non-overlapping matches, advance one character past a
zero-width match. -/
def findallCountAux : Nat → RE → List Char → Nat
  | 0, _, _ => 0
  | fuel + 1, r, s =>
    match matchAt r s with
    | some s2 =>
      if s2.length < s.length then 1 + findallCountAux fuel r s2
      else
        match s with
        | [] => 1
        | _ :: rest => 1 + findallCountAux fuel r rest
    | none =>
      match s with
      | [] => 0
      | _ :: rest => findallCountAux fuel r rest

/-- `len(re.findall(pattern, s))`. -/
def findallCount (r : RE) (s : List Char) : Nat := findallCountAux (s.length + 1) r s

/-- Shorthand: `\s+`. -/
def reSp : RE := .plus (.cls .space)

/-- Shorthand: `\d{lo,hi}`. -/
def reD (lo hi : Nat) : RE := .rep (.cls .digit) lo hi

/-! ### Urgency agent (agents.py) -/

/-- `URGENCY_KEYWORDS` (agents.py lines 73-91), in declaration order. -/
def URGENCY_KEYWORDS : List (String × ℚ) :=
  [("critical", 1.0), ("urgent", 0.9), ("emergency", 1.0), ("asap", 0.9),
   ("immediately", 0.9), ("today", 0.7), ("tonight", 0.7), ("deadline", 0.8),
   ("due", 0.6), ("expiring", 0.7), ("expires", 0.7), ("time-sensitive", 0.8),
   ("time sensitive", 0.8), ("quickly", 0.5), ("quick", 0.5), ("rush", 0.7),
   ("hurry", 0.6)]

/-- `TEMPORAL_PATTERNS` (agents.py lines 94-102) as pattern ASTs. -/
def TEMPORAL_PATTERNS : List RE :=
  [.seq [reD 1 2, .lit "/", reD 1 2, .opt (.seq [.lit "/", reD 2 4])],
   .seq [reD 1 2, .lit ":", reD 2 2, .star (.cls .space), .cls (.oneOf ['a', 'p']), .lit "m"],
   .alt [.lit "monday", .lit "tuesday", .lit "wednesday", .lit "thursday",
         .lit "friday", .lit "saturday", .lit "sunday"],
   .alt [.lit "tomorrow", .lit "tonight",
         .seq [.lit "this", reSp,
               .alt [.lit "morning", .lit "afternoon", .lit "evening", .lit "week"]]],
   .seq [.lit "by", reSp,
         .alt [.lit "tomorrow", .lit "tonight", .lit "friday",
               .seq [.lit "next", reSp, .lit "week"]]],
   .seq [.lit "before", reSp, reD 1 2, .cls (.oneOf [':', '/']), reD 1 2],
   .seq [.alt [.lit "in", .lit "within"], reSp, .plus (.cls .digit), reSp,
         .alt [.lit "hour", .lit "day", .lit "week"], .opt (.lit "s")]]

/-- `analyze_urgency` (agents.py lines 105-156): weighted keyword score
(each keyword capped at 3 occurrences), normalised by 3 when any keyword
hit, +0.3 for a temporal pattern, +0.2 for two or more exclamation marks,
tension = 0.8 × urgency. -/
def analyze_urgency (text : String) (metadata : EmailMetadata) : ℚ × ℚ × String :=
  let text_lower := lowerStr text
  let tl := text_lower.data
  let acc := URGENCY_KEYWORDS.foldl (fun (acc : ℚ × Nat) kw =>
    let count := countSubstr kw.1.data tl
    if count > 0 then (acc.1 + kw.2 * ((min count 3 : Nat) : ℚ), acc.2 + count) else acc)
    (0, 0)
  let urgency_score := acc.1
  let keyword_count := acc.2
  let urgency_score := if keyword_count > 0 then min 1 (urgency_score / 3) else urgency_score
  let has_temporal := TEMPORAL_PATTERNS.any (fun p => findallCount p tl > 0)
  let urgency_score := if has_temporal then min 1 (urgency_score + 0.3) else urgency_score
  let exclamation_count := countSubstr ['!'] text.data
  let urgency_score := if exclamation_count ≥ 2 then min 1 (urgency_score + 0.2) else urgency_score
  let tension_score := min 1 (urgency_score * 0.8)
  let gloss :=
    if urgency_score > 0.7 then "Critical time pressure with immediate deadline"
    else if urgency_score > 0.4 then
      (if has_temporal then "Moderate urgency with temporal constraints"
       else "Some time pressure indicated")
    else "Low urgency, flexible timeline"
  (urgency_score, tension_score, gloss)

/-! ### Importance agent (agents.py) -/

/-- `IMPORTANCE_DOMAINS` (agents.py lines 164-195): name, keywords, weight,
in declaration order. -/
def IMPORTANCE_DOMAINS : List (String × List String × ℚ) :=
  [("financial",
    ["invoice", "payment", "bill", "tax", "taxes", "budget", "cost", "price",
     "money", "dollar", "invest", "investment", "loan", "debt", "salary", "raise"], 0.9),
   ("health",
    ["health", "medical", "doctor", "hospital", "insurance", "prescription",
     "appointment", "diagnosis", "treatment", "therapy", "surgery"], 1.0),
   ("legal",
    ["legal", "contract", "agreement", "compliance", "liability", "lawsuit",
     "attorney", "lawyer", "court", "regulation", "policy"], 0.95),
   ("career",
    ["promotion", "review", "performance", "job", "offer", "hire", "interview",
     "career", "resignation", "termination", "salary", "position"], 0.85),
   ("relationship",
    ["family", "friend", "mom", "dad", "mother", "father", "sister", "brother",
     "partner", "spouse", "child", "parent", "relative"], 0.8),
   ("academic",
    ["research", "publication", "paper", "study", "grant", "funding",
     "conference", "presentation", "thesis", "dissertation", "academic"], 0.85)]

/-- Python `max(l, key=val)`: first element attaining the maximum wins
(a later element replaces the current best only when strictly greater). -/
def maxByFirst {α β : Type} [LinearOrder β] (val : α → β) (l : List α) : Option α :=
  l.foldl (fun acc x =>
    match acc with
    | none => some x
    | some b => if val x > val b then some x else some b) none

/-- `analyze_importance` (agents.py lines 198-236): per-domain weighted
occurrence scores, dominant domain by first-wins arg-max, overall score =
total / 5 clamped to 1. -/
def analyze_importance (text : String) (metadata : EmailMetadata) : ℚ × String × String :=
  let text_lower := lowerStr text
  let domain_scores := IMPORTANCE_DOMAINS.filterMap (fun d =>
    let score := d.2.1.foldl (fun acc kw =>
      let count := countSubstr kw.data text_lower.data
      if count > 0 then acc + (count : ℚ) * d.2.2 else acc) 0
    if score > 0 then some (d.1, score) else none)
  match maxByFirst (fun p => p.2) domain_scores with
  | some dom =>
    let total_score := (domain_scores.map (fun p => p.2)).sum
    let importance_score := min 1 (total_score / 5)
    (importance_score, dom.1,
      if importance_score > 0.6 then "Significant " ++ dom.1 ++ " implications with long-term impact"
      else if importance_score > 0.3 then "Moderate " ++ dom.1 ++ " matter requiring attention"
      else "Routine " ++ dom.1 ++ " communication")
  | none => (0, "general", "Routine general communication")

/-! ### Topic agent (agents.py) -/

/-- The stop-word set of `analyze_topic` (agents.py lines 274-275). -/
def STOP_WORDS : List String :=
  ["that", "this", "with", "from", "have", "will", "your", "they",
   "been", "were", "said", "would", "there", "their", "what", "about"]

/-- Python `\w` membership. -/
def isWordChar (c : Char) : Bool := c.isAlphanum || c = '_'

/-- Maximal runs of word characters of a string (fuel-indexed scan). -/
def wordRunsAux : Nat → List Char → List (List Char)
  | 0, _ => []
  | _, [] => []
  | fuel + 1, c :: rest =>
    if isWordChar c then
      ((c :: rest).takeWhile isWordChar) :: wordRunsAux fuel ((c :: rest).dropWhile isWordChar)
    else wordRunsAux fuel rest

/-- Models `re.findall(r'\b[a-zA-Z]{4,}\b', s)`: with that pattern a match
is exactly a maximal run of word characters consisting solely of letters
with length at least 4 (the trailing `\b` cannot fall inside a run, so runs
containing a digit or underscore never match). -/
def extract_words (s : String) : List String :=
  ((wordRunsAux (s.data.length + 1) s.data).filter
    (fun r => decide (r.length ≥ 4) && r.all Char.isAlpha)).map String.mk

/-- Models `re.sub(r'^(re:|fwd:|fw:)\s*', '', subject, flags=re.IGNORECASE)`
(agents.py line 262): the anchored pattern can match only once, at position
0, with ordered alternation `re:`, `fwd:`, `fw:`. -/
def strip_subject_marker (subject : String) : String :=
  let lower := (lowerStr subject).data
  let dropN (n : Nat) : String := String.mk ((subject.data.drop n).dropWhile isPySpace)
  if startsL "re:".data lower then dropN 3
  else if startsL "fwd:".data lower then dropN 4
  else if startsL "fw:".data lower then dropN 3
  else subject

/-- One step of the `word_freq` accumulation of `analyze_topic` (agents.py
lines 277-280): a Python dict update, preserving first-seen key order. -/
def bumpFreq (acc : List (String × Nat)) (w : String) : List (String × Nat) :=
  if acc.any (fun p => p.1 = w) then
    acc.map (fun p => if p.1 = w then (p.1, p.2 + 1) else p)
  else acc ++ [(w, 1)]

/-- `analyze_topic` (agents.py lines 243-286): first matching importance
domain, else first 4+-letter word of the cleaned subject, else the most
frequent non-stop 4+-letter body word (ties to first seen), else "general". -/
def analyze_topic (text : String) (metadata : EmailMetadata) : String × String :=
  let text_lower := lowerStr text
  match IMPORTANCE_DOMAINS.findSome? (fun d =>
      if d.2.1.any (fun kw => strContains text_lower kw) then some d.1 else none) with
  | some domain => (domain, "Primary topic: " ++ domain)
  | none =>
    let subject := metadata.subject
    let fromSubject :=
      if subject ≠ "" then
        match extract_words (pyStrip (strip_subject_marker subject)) with
        | w :: _ => some (lowerStr w)
        | [] => none
      else none
    match fromSubject with
    | some topic => (topic, "Primary topic: " ++ topic)
    | none =>
      let words := extract_words text_lower
      let word_freq := words.foldl (fun acc w =>
        if STOP_WORDS.contains w then acc else bumpFreq acc w) []
      match maxByFirst (fun p => p.2) word_freq with
      | some p => (p.1, "Primary topic: " ++ p.1)
      | none => ("general", "Primary topic: general communication")

/-! ### Tone agent (agents.py) -/

/-- `WARMTH_INDICATORS` (agents.py lines 293-299). -/
def WARMTH_INDICATORS : List String :=
  ["thanks", "thank you", "appreciate", "grateful", "gratitude",
   "love", "loving", "loved", "dear", "kind", "kindly",
   "hope you", "hope all is well", "hope you\x27re well",
   "best wishes", "best regards", "warm regards",
   "cheers", "xo", "hugs", "❤", "💕", "🙏", "😊"]

/-- `TENSION_INDICATORS` (agents.py lines 301-306). -/
def TENSION_INDICATORS : List String :=
  ["sorry", "apologize", "unfortunately", "regret", "concern", "concerned",
   "worry", "worried", "issue", "problem", "trouble", "difficult",
   "disappointed", "frustrat", "upset", "angry", "unacceptable",
   "mistake", "error", "wrong", "incorrect", "failed"]

/-- `FORMALITY_INDICATORS` (agents.py lines 308-313). -/
def FORMALITY_INDICATORS : List String :=
  ["dear sir", "dear madam", "to whom", "sincerely", "regards",
   "respectfully", "cordially", "please be advised", "kindly note",
   "herein", "pursuant", "whereas", "hereby",
   "mr.", "ms.", "mrs.", "dr.", "prof."]

/-- The family/personal sender terms of `analyze_tone` (agents.py lines
339-340). -/
def PERSONAL_INDICATORS : List String :=
  ["mom", "dad", "mother", "father", "sister", "brother",
   "family", "friend", "personal"]

/-- `analyze_tone` (agents.py lines 316-361): indicator counts normalised by
5, 5 and 3, a +0.3 warmth / −0.4 formality adjustment for personal senders,
and a descriptor gloss. -/
def analyze_tone (text : String) (metadata : EmailMetadata) : ℚ × ℚ × ℚ × String :=
  let text_lower := lowerStr text
  let warmth_count := (WARMTH_INDICATORS.filter (fun i => strContains text_lower i)).length
  let warmth := min 1 ((warmth_count : ℚ) / 5)
  let tension_count := (TENSION_INDICATORS.filter (fun i => strContains text_lower i)).length
  let tension := min 1 ((tension_count : ℚ) / 5)
  let formality_count := (FORMALITY_INDICATORS.filter (fun i => strContains text_lower i)).length
  let formality := min 1 ((formality_count : ℚ) / 3)
  let sender := lowerStr metadata.sender
  let personal := PERSONAL_INDICATORS.any (fun i => strContains sender i)
  let warmth := if personal then min 1 (warmth + 0.3) else warmth
  let formality := if personal then max 0 (formality - 0.4) else formality
  let tone_descriptors :=
    (if warmth > 0.5 then ["warm"] else []) ++
    (if tension > 0.5 then ["tense"] else []) ++
    (if formality > 0.6 then ["formal"] else if formality < 0.3 then ["casual"] else [])
  let tone_descriptors := if tone_descriptors.isEmpty then ["neutral"] else tone_descriptors
  (warmth, tension, formality, "Tone: " ++ String.intercalate " and " tone_descriptors)

/-! ### Action agent (agents.py) -/

/-- `ACTION_PATTERNS` (agents.py lines 368-410): category name, pattern
ASTs, recommended action, in declaration order. -/
def ACTION_PATTERNS : List (String × List RE × String) :=
  [("reply",
    [.seq [.lit "please", reSp, .alt [.lit "respond", .lit "reply",
           .seq [.lit "get", reSp, .lit "back"]]],
     .seq [.lit "let", reSp, .lit "me", reSp, .lit "know"],
     .seq [.lit "waiting", reSp, .lit "to", reSp, .lit "hear"],
     .seq [.lit "looking", reSp, .lit "forward", reSp, .lit "to", reSp, .lit "your"],
     .seq [.lit "?", .eos]],
    "Reply within 24 hours"),
   ("schedule",
    [.lit "meeting", .lit "call", .lit "schedule", .lit "calendar",
     .lit "available", .lit "availability",
     .seq [.lit "book", reSp, .lit "a", reSp, .lit "time"],
     .seq [.lit "let\x27s", reSp, .lit "meet"],
     .lit "coffee", .lit "lunch", .lit "dinner"],
    "Schedule a meeting or call"),
   ("review",
    [.seq [.lit "please", reSp, .lit "review"], .lit "feedback",
     .seq [.lit "look", reSp, .lit "at"],
     .seq [.lit "check", reSp, .lit "out"],
     .seq [.lit "take", reSp, .lit "a", reSp, .lit "look"],
     .lit "attached", .lit "document", .lit "draft", .lit "proposal"],
    "Review attached materials or document"),
   ("task",
    [.seq [.lit "please", reSp, .plus (.cls .word)],
     .seq [.lit "could", reSp, .lit "you"],
     .seq [.lit "would", reSp, .lit "you"],
     .seq [.lit "can", reSp, .lit "you"],
     .seq [.lit "need", reSp, .lit "you", reSp, .lit "to"],
     .seq [.lit "action", reSp, .lit "required"]],
    "Take specific action mentioned in email"),
   ("fyi",
    [.lit "fyi",
     .seq [.lit "for", reSp, .lit "your", reSp, .lit "information"],
     .seq [.lit "heads", reSp, .lit "up"],
     .seq [.lit "just", reSp, .lit "letting", reSp, .lit "you", reSp, .lit "know"],
     .seq [.lit "wanted", reSp, .lit "to", reSp, .lit "inform"],
     .lit "update", .lit "newsletter"],
    "Read and file for reference")]

/-- `analyze_action` (agents.py lines 413-445): total findall count per
category, first-wins arg-max, with an urgency/importance fallback; the
source returns the chosen gloss in both tuple positions. -/
def analyze_action (text : String) (metadata : EmailMetadata) (urgency importance : ℚ) :
    String × String :=
  let tl := (lowerStr text).data
  let action_scores := ACTION_PATTERNS.filterMap (fun a =>
    let score := (a.2.1.map (fun p => findallCount p tl)).sum
    if score > 0 then some (a.1, score) else none)
  let action_gloss :=
    match maxByFirst (fun p => p.2) action_scores with
    | some p => ((ACTION_PATTERNS.lookup p.1).map (fun c => c.2)).getD ""
    | none =>
      if urgency > 0.7 then "Reply within 24 hours"
      else if importance > 0.6 then "Schedule response in next few days"
      else "Archive after review"
  (action_gloss, action_gloss)

/-! ### Orchestrator (agents.py) -/

/-- Modelled from the spec: `semantic_hash` (model.py line 219) wraps
`hashlib.sha256`, an external standard-library collaborator whose internals
are not part of this repository.  The spec requires of it only
"`digest(text) -> 32-byte value`, deterministic"; it is therefore modelled
by a deterministic 32-byte mixing function of the text (collision
resistance and one-wayness are not embeddable properties). -/
def semantic_hash (text : String) : List Nat :=
  let seed := text.data.foldl (fun a c => (a * 131 + c.toNat + 7) % 1099511627776) 5381
  (List.range 32).map (fun i => (seed / (i + 1) + 137 * i + seed % (i + 17)) % 256)

/-- `analyze_email_agents` (agents.py lines 452-567): run the five agents
and assemble the packet mapping in insertion order urgency, importance,
topic, tone, action.  The numeric interpolation into motif strings uses the
rational's canonical rendering; it feeds only the modelled digest. -/
def analyze_email_agents (full_text : String) (metadata : EmailMetadata) :
    List (String × VSEPacket) :=
  let u := analyze_urgency full_text metadata
  let urgency_score := u.1
  let tension_score := u.2.1
  let im := analyze_importance full_text metadata
  let importance_score := im.1
  let domain := im.2.1
  let tp := analyze_topic full_text metadata
  let tn := analyze_tone full_text metadata
  let warmth := tn.1
  let tone_tension := tn.2.1
  let formality := tn.2.2.1
  let ac := analyze_action full_text metadata urgency_score importance_score
  [("urgency",
    { agent_role := "urgency"
      intent_spine := IntentSpine.post_init urgency_score 0 0 tension_score 0.95
      affect_lattice := AffectLattice.post_init 0 0 0 (tension_score * 0.8) 0 0
      semantic_motif := semantic_hash ("urgency:" ++ toString urgency_score ++ ":" ++ full_text.take 100)
      gloss := u.2.2
      confidence := 0.95 }),
   ("importance",
    { agent_role := "importance"
      intent_spine := IntentSpine.post_init 0 importance_score 0 0 0.9
      affect_lattice := AffectLattice.post_init 0 0 0 0 0 0
      semantic_motif := semantic_hash ("importance:" ++ domain ++ ":" ++ full_text.take 100)
      gloss := im.2.2
      confidence := 0.9 }),
   ("topic",
    { agent_role := "topic"
      intent_spine := IntentSpine.post_init 0 0 0 0 0.85
      affect_lattice := AffectLattice.post_init 0 0 0 0 0 0
      semantic_motif := semantic_hash ("topic:" ++ tp.1)
      gloss := tp.2
      confidence := 0.85 }),
   ("tone",
    { agent_role := "tone"
      intent_spine := IntentSpine.post_init 0 0 warmth tone_tension 0.9
      affect_lattice := AffectLattice.post_init (warmth * 0.9) 0 0 (tone_tension * 0.7) (warmth * 0.8) 0
      semantic_motif := semantic_hash ("tone:" ++ toString warmth ++ ":" ++ toString tone_tension ++ ":" ++ toString formality)
      gloss := tn.2.2.2
      confidence := 0.9 }),
   ("action",
    { agent_role := "action"
      intent_spine := IntentSpine.post_init urgency_score importance_score warmth 0 0.9
      affect_lattice := AffectLattice.post_init 0 0 0 0 0 0
      semantic_motif := semantic_hash ("action:" ++ ac.1)
      gloss := ac.2
      confidence := 0.9 })]

/-- The core pipeline composition used by `process_email` (processor.py
lines 67-70): run the five agents, then route.  Header parsing and body
extraction are external collaborators outside the core. -/
def process_core (full_text : String) (metadata : EmailMetadata) :
    Except String EmailAnalysis :=
  route_email (analyze_email_agents full_text metadata) metadata

/-! ### Specification-side definitions and test fixtures -/

/-- The range discipline `IntentSpine.__post_init__` establishes: every
dimension inside its declared range (`[0,1]`; warmth `[-1,1]`). -/
def spineInRange (s : IntentSpine) : Prop :=
  0 ≤ s.urgency ∧ s.urgency ≤ 1 ∧ 0 ≤ s.importance ∧ s.importance ≤ 1 ∧
  -1 ≤ s.warmth ∧ s.warmth ≤ 1 ∧ 0 ≤ s.tension ∧ s.tension ≤ 1 ∧
  0 ≤ s.confidence ∧ s.confidence ≤ 1

instance (s : IntentSpine) : Decidable (spineInRange s) := by
  unfold spineInRange; infer_instance

/-- The arithmetic mean of a list of rationals (0 for the empty list, since
division by zero is 0 in `ℚ`). -/
def arith_mean (l : List ℚ) : ℚ := l.sum / l.length

/-- The local part of an email address: everything before the first `@`. -/
def localPart (sender : String) : String :=
  String.mk (sender.data.takeWhile (fun c => c ≠ '@'))

/-- The bulk-mail predicate exactly as claim C8 words it: newsletter or
unsubscribe in some agent's gloss (case-insensitive), digest in the subject,
weekly and update both in the subject, or the sender's local part starting
with newsletter or noreply.  Stated for comparison against the source's
`is_newsletter`. -/
def claimed_bulk_detect (packets : List (String × VSEPacket)) (metadata : EmailMetadata) : Bool :=
  packets.any (fun p =>
    strContains (lowerStr p.2.gloss) "newsletter" ||
    strContains (lowerStr p.2.gloss) "unsubscribe") ||
  strContains (lowerStr metadata.subject) "digest" ||
  (strContains (lowerStr metadata.subject) "weekly" &&
   strContains (lowerStr metadata.subject) "update") ||
  startsL "newsletter".data (localPart (lowerStr metadata.sender)).data ||
  startsL "noreply".data (localPart (lowerStr metadata.sender)).data

/-- Claim C8 with only its sender clause amended to what the source
implements: the sender string contains `"newsletter@"` or `"noreply@"` as a
case-insensitive substring (rather than a check on the local part's
start). -/
def amended_bulk_detect (packets : List (String × VSEPacket)) (metadata : EmailMetadata) : Bool :=
  packets.any (fun p =>
    strContains (lowerStr p.2.gloss) "newsletter" ||
    strContains (lowerStr p.2.gloss) "unsubscribe") ||
  strContains (lowerStr metadata.subject) "digest" ||
  (strContains (lowerStr metadata.subject) "weekly" &&
   strContains (lowerStr metadata.subject) "update") ||
  strContains (lowerStr metadata.sender) "newsletter@" ||
  strContains (lowerStr metadata.sender) "noreply@"

/-- A 32-byte motif for concrete test packets (same size as a real digest). -/
def testMotif : List Nat := List.replicate 32 0

/-- A concrete packet template used by witness instantiations. -/
def mkTestPacket (role : String) (u i w t : ℚ) (gloss : String) : VSEPacket :=
  { agent_role := role
    intent_spine := IntentSpine.post_init u i w t 0.9
    affect_lattice := AffectLattice.post_init 0 0 0 0 0 0
    semantic_motif := testMotif
    gloss := gloss
    confidence := 0.9 }

/-- Empty metadata fixture. -/
def mdEmpty : EmailMetadata := ⟨"", "", none, none, none⟩

/-- Metadata fixture for the C8 counterexample: sender whose local part
starts with "newsletter" but which contains no `"newsletter@"` substring. -/
def mdNewsletterDash : EmailMetadata :=
  ⟨"newsletter-weekly@example.com", "", none, none, none⟩

/-! ## Supporting lemmas -/

lemma clamp01_nonneg (x : ℚ) : 0 ≤ clamp01 x := le_max_left 0 _

lemma clamp01_le_one (x : ℚ) : clamp01 x ≤ 1 :=
  max_le (by norm_num) (min_le_left 1 x)

lemma clampSym_neg_one_le (x : ℚ) : -1 ≤ clampSym x := le_max_left (-1) _

lemma clampSym_le_one (x : ℚ) : clampSym x ≤ 1 :=
  max_le (by norm_num) (min_le_left 1 x)

lemma clamp01_eq_self {x : ℚ} (h0 : 0 ≤ x) (h1 : x ≤ 1) : clamp01 x = x := by
  unfold clamp01
  rw [min_eq_right h1, max_eq_right h0]

lemma clampSym_eq_self {x : ℚ} (h0 : -1 ≤ x) (h1 : x ≤ 1) : clampSym x = x := by
  unfold clampSym
  rw [min_eq_right h1, max_eq_right h0]

lemma list_sum_le_length {l : List ℚ} (h : ∀ x ∈ l, x ≤ 1) : l.sum ≤ l.length := by
  induction l with
  | nil => simp
  | cons a t ih =>
    have ha := h a (by simp)
    have ht := ih (fun x hx => h x (by simp [hx]))
    simp only [List.sum_cons, List.length_cons]
    push_cast
    linarith

lemma list_sum_nonneg {l : List ℚ} (h : ∀ x ∈ l, 0 ≤ x) : 0 ≤ l.sum := by
  induction l with
  | nil => simp
  | cons a t ih =>
    have ha := h a (by simp)
    have ht := ih (fun x hx => h x (by simp [hx]))
    simp only [List.sum_cons]
    linarith

lemma neg_length_le_list_sum {l : List ℚ} (h : ∀ x ∈ l, -1 ≤ x) :
    -(l.length : ℚ) ≤ l.sum := by
  induction l with
  | nil => simp
  | cons a t ih =>
    have ha := h a (by simp)
    have ht := ih (fun x hx => h x (by simp [hx]))
    simp only [List.sum_cons, List.length_cons]
    push_cast
    linarith

lemma avg_le_one {l : List ℚ} (h : ∀ x ∈ l, x ≤ 1) : l.sum / l.length ≤ 1 := by
  cases l with
  | nil => simp
  | cons a t =>
    have hpos : (0 : ℚ) < ((a :: t).length : ℚ) := Nat.cast_pos.mpr (Nat.succ_pos _)
    rw [div_le_one hpos]
    exact list_sum_le_length h

lemma avg_nonneg {l : List ℚ} (h : ∀ x ∈ l, 0 ≤ x) : 0 ≤ l.sum / l.length :=
  div_nonneg (list_sum_nonneg h) (Nat.cast_nonneg _)

lemma neg_one_le_avg {l : List ℚ} (h : ∀ x ∈ l, -1 ≤ x) : -1 ≤ l.sum / l.length := by
  cases l with
  | nil => simp
  | cons a t =>
    have hpos : (0 : ℚ) < ((a :: t).length : ℚ) := Nat.cast_pos.mpr (Nat.succ_pos _)
    rw [le_div_iff₀ hpos]
    simpa using neg_length_le_list_sum h

/-- Structural form of `benevolence_clamp` on a non-empty mapping: averages,
conditional tension blend, final clamps. -/
lemma benevolence_clamp_eq (packets : List (String × VSEPacket)) (h : packets ≠ []) :
    benevolence_clamp packets =
      .ok (clamp01 (fusion_averages packets).1,
           clamp01 (fusion_averages packets).2.1,
           clampSym (fusion_averages packets).2.2.1,
           clamp01 (if (fusion_averages packets).2.2.1 > 0.6 ∧
                       (fusion_averages packets).2.2.2 > 0.7
                    then ((fusion_averages packets).2.2.2 +
                          (fusion_averages packets).2.2.1) / 2
                    else (fusion_averages packets).2.2.2)) := by
  have hE : packets.isEmpty = false := by simp [List.isEmpty_iff, h]
  rcases hA : fusion_averages packets with ⟨u, i, w, t⟩
  simp only [benevolence_clamp, hE, Bool.false_eq_true, if_false, hA]

/-- Constructed spines are in range (the `__post_init__` clamps). -/
lemma post_init_in_range (u i w t c : ℚ) : spineInRange (IntentSpine.post_init u i w t c) :=
  ⟨clamp01_nonneg u, clamp01_le_one u, clamp01_nonneg i, clamp01_le_one i,
   clampSym_neg_one_le w, clampSym_le_one w, clamp01_nonneg t, clamp01_le_one t,
   clamp01_nonneg c, clamp01_le_one c⟩

/-- Bounds on the four averages, given in-range packet spines. -/
lemma fusion_averages_bounds (packets : List (String × VSEPacket))
    (hrange : ∀ p ∈ packets, spineInRange p.2.intent_spine) :
    (0 ≤ (fusion_averages packets).1 ∧ (fusion_averages packets).1 ≤ 1) ∧
    (0 ≤ (fusion_averages packets).2.1 ∧ (fusion_averages packets).2.1 ≤ 1) ∧
    (-1 ≤ (fusion_averages packets).2.2.1 ∧ (fusion_averages packets).2.2.1 ≤ 1) ∧
    (0 ≤ (fusion_averages packets).2.2.2 ∧ (fusion_averages packets).2.2.2 ≤ 1) := by
  have key : ∀ (f : IntentSpine → ℚ), (∀ s, spineInRange s → 0 ≤ f s ∧ f s ≤ 1) →
      (∀ x ∈ packets.map (fun p => f p.2.intent_spine), 0 ≤ x ∧ x ≤ 1) := by
    intro f hf x hx
    rw [List.mem_map] at hx
    obtain ⟨p, hp, rfl⟩ := hx
    exact hf _ (hrange p hp)
  have keyW : ∀ x ∈ packets.map (fun p => p.2.intent_spine.warmth), -1 ≤ x ∧ x ≤ 1 := by
    intro x hx
    rw [List.mem_map] at hx
    obtain ⟨p, hp, rfl⟩ := hx
    have h := hrange p hp
    exact ⟨h.2.2.2.2.1, h.2.2.2.2.2.1⟩
  have hu := key (fun s => s.urgency) (fun s hs => ⟨hs.1, hs.2.1⟩)
  have hi := key (fun s => s.importance) (fun s hs => ⟨hs.2.2.1, hs.2.2.2.1⟩)
  have ht := key (fun s => s.tension) (fun s hs => ⟨hs.2.2.2.2.2.2.1, hs.2.2.2.2.2.2.2.1⟩)
  have conv1 : ∀ (f : String × VSEPacket → ℚ),
      (∀ x ∈ packets.map f, 0 ≤ x ∧ x ≤ 1) →
      0 ≤ (packets.map f).sum / (packets.length : ℚ) ∧
      (packets.map f).sum / (packets.length : ℚ) ≤ 1 := by
    intro f hf
    have hl : ((packets.length : ℕ) : ℚ) = (((packets.map f).length : ℕ) : ℚ) := by
      rw [List.length_map]
    rw [hl]
    exact ⟨avg_nonneg (fun x hx => (hf x hx).1), avg_le_one (fun x hx => (hf x hx).2)⟩
  have convW :
      (∀ x ∈ packets.map (fun p => p.2.intent_spine.warmth), -1 ≤ x ∧ x ≤ 1) →
      -1 ≤ (packets.map (fun p => p.2.intent_spine.warmth)).sum / (packets.length : ℚ) ∧
      (packets.map (fun p => p.2.intent_spine.warmth)).sum / (packets.length : ℚ) ≤ 1 := by
    intro hf
    have hl : ((packets.length : ℕ) : ℚ) =
        (((packets.map (fun p => p.2.intent_spine.warmth)).length : ℕ) : ℚ) := by
      rw [List.length_map]
    rw [hl]
    exact ⟨neg_one_le_avg (fun x hx => (hf x hx).1), avg_le_one (fun x hx => (hf x hx).2)⟩
  unfold fusion_averages
  exact ⟨conv1 _ hu, conv1 _ hi, convW keyW, conv1 _ ht⟩

/-! ## Claim theorems -/

/-- C1: on any packet mapping with in-range spines whose averaged warmth
exceeds 0.6 and averaged tension exceeds 0.7, `benevolence_clamp` returns a
fused tension equal to `(averaged tension + averaged warmth) / 2` (the final
range clamp leaves the blend untouched). -/
theorem benevolence_clamp_blends_tension
    (packets : List (String × VSEPacket))
    (hrange : ∀ p ∈ packets, spineInRange p.2.intent_spine)
    (u i w t : ℚ) (hA : fusion_averages packets = (u, i, w, t))
    (hw : w > 0.6) (ht : t > 0.7) :
    benevolence_clamp packets = .ok (clamp01 u, clamp01 i, clampSym w, (t + w) / 2) := by
  have hne : packets ≠ [] := by
    rintro rfl
    have h0 : fusion_averages ([] : List (String × VSEPacket)) = (0, 0, 0, 0) := by
      simp [fusion_averages]
    rw [h0] at hA
    simp only [Prod.mk.injEq] at hA
    obtain ⟨-, -, hw0, -⟩ := hA
    rw [← hw0] at hw
    norm_num at hw
  have hb := fusion_averages_bounds packets hrange
  rw [hA] at hb
  dsimp only at hb
  obtain ⟨-, -, ⟨-, hw1⟩, ⟨-, ht1⟩⟩ := hb
  rw [benevolence_clamp_eq packets hne, hA]
  have hcond : w > 0.6 ∧ t > 0.7 := ⟨hw, ht⟩
  dsimp only
  rw [if_pos hcond]
  have hblend : clamp01 ((t + w) / 2) = (t + w) / 2 :=
    clamp01_eq_self (by linarith) (by linarith)
  rw [hblend]

/-- C1 witness: a single packet with warmth 0.8 and tension 0.9 fuses to
tension exactly 0.85. -/
theorem benevolence_clamp_blends_tension_witness :
    benevolence_clamp [("tone", mkTestPacket "tone" 0 0 0.8 0.9 "hi")] =
      .ok (0, 0, 0.8, 0.85) := by
  have h := benevolence_clamp_blends_tension
    [("tone", mkTestPacket "tone" 0 0 0.8 0.9 "hi")]
    (by rintro p hp
        rcases List.mem_singleton.mp hp with rfl
        exact post_init_in_range 0 0 0.8 0.9 0.9)
    0 0 0.8 0.9
    (by norm_num [fusion_averages, mkTestPacket, IntentSpine.post_init, clamp01, clampSym])
    (by norm_num) (by norm_num)
  rw [h]
  norm_num [clamp01, clampSym]

/-- C5: the democratic-averaging stage of `benevolence_clamp` computes the
arithmetic mean of each dimension over all supplied packets, and both the
averages and the full fusion result are invariant under reordering
(permutation) of the packet mapping. -/
theorem fusion_democratic_mean_order_independent
    (ps qs : List (String × VSEPacket)) (hperm : ps.Perm qs) (hne : ps ≠ []) :
    fusion_averages ps =
      (arith_mean (ps.map (fun p => p.2.intent_spine.urgency)),
       arith_mean (ps.map (fun p => p.2.intent_spine.importance)),
       arith_mean (ps.map (fun p => p.2.intent_spine.warmth)),
       arith_mean (ps.map (fun p => p.2.intent_spine.tension))) ∧
    fusion_averages ps = fusion_averages qs ∧
    benevolence_clamp ps = benevolence_clamp qs := by
  have hlen : ps.length = qs.length := hperm.length_eq
  have havg : fusion_averages ps = fusion_averages qs := by
    unfold fusion_averages
    rw [hlen, (hperm.map _).sum_eq, (hperm.map _).sum_eq,
        (hperm.map _).sum_eq, (hperm.map _).sum_eq]
  refine ⟨?_, havg, ?_⟩
  · unfold fusion_averages arith_mean
    simp [List.length_map]
  · have hne' : qs ≠ [] := by
      intro hq
      rw [hq] at hlen
      exact hne (List.length_eq_zero.mp hlen)
    rw [benevolence_clamp_eq ps hne, benevolence_clamp_eq qs hne', havg]

/-- C5 witness: two packets in both orders share averages and fusion. -/
theorem fusion_democratic_mean_order_independent_witness :
    fusion_averages [("a", mkTestPacket "a" 0.2 0.4 0.1 0.6 "x"),
                     ("b", mkTestPacket "b" 0.8 0 0.3 0 "y")] =
      (arith_mean [0.2, 0.8], arith_mean [0.4, 0], arith_mean [0.1, 0.3],
       arith_mean [0.6, 0]) ∧
    fusion_averages [("a", mkTestPacket "a" 0.2 0.4 0.1 0.6 "x"),
                     ("b", mkTestPacket "b" 0.8 0 0.3 0 "y")] =
      fusion_averages [("b", mkTestPacket "b" 0.8 0 0.3 0 "y"),
                       ("a", mkTestPacket "a" 0.2 0.4 0.1 0.6 "x")] ∧
    benevolence_clamp [("a", mkTestPacket "a" 0.2 0.4 0.1 0.6 "x"),
                       ("b", mkTestPacket "b" 0.8 0 0.3 0 "y")] =
      benevolence_clamp [("b", mkTestPacket "b" 0.8 0 0.3 0 "y"),
                         ("a", mkTestPacket "a" 0.2 0.4 0.1 0.6 "x")] := by
  have h := fusion_democratic_mean_order_independent
    [("a", mkTestPacket "a" 0.2 0.4 0.1 0.6 "x"),
     ("b", mkTestPacket "b" 0.8 0 0.3 0 "y")]
    [("b", mkTestPacket "b" 0.8 0 0.3 0 "y"),
     ("a", mkTestPacket "a" 0.2 0.4 0.1 0.6 "x")]
    (List.Perm.swap _ _ _) (by simp)
  refine ⟨?_, h.2.1, h.2.2⟩
  rw [h.1]
  norm_num [mkTestPacket, IntentSpine.post_init, clamp01, clampSym, arith_mean]

/-- C6: fusion on an empty packet mapping fails fast with the empty-input
error (the source's raised `ValueError`, modelled as `Except.error`), and on
every non-empty mapping fusion succeeds without raising. -/
theorem fusion_empty_fails_nonempty_succeeds :
    benevolence_clamp [] = .error "Cannot perform benevolent fusion on empty packet set" ∧
    ∀ packets : List (String × VSEPacket), packets ≠ [] →
      ∃ v, benevolence_clamp packets = .ok v := by
  refine ⟨rfl, fun packets h => ⟨_, benevolence_clamp_eq packets h⟩⟩

/-- C6 witness: one concrete non-empty mapping fuses successfully. -/
theorem fusion_empty_fails_nonempty_succeeds_witness :
    ∃ v, benevolence_clamp [("tone", mkTestPacket "tone" 0 0 0 0 "hi")] = .ok v :=
  fusion_empty_fails_nonempty_succeeds.2
    [("tone", mkTestPacket "tone" 0 0 0 0 "hi")] (by simp)

/-- C7: every `IntentSpine` is clamped to its declared ranges at
construction, and every fused output of `benevolence_clamp` has urgency,
importance and tension in [0,1] and warmth in its declared range [-1,1]. -/
theorem range_invariants :
    (∀ u i w t c : ℚ, spineInRange (IntentSpine.post_init u i w t c)) ∧
    (∀ (packets : List (String × VSEPacket)) (u i w t : ℚ),
      benevolence_clamp packets = .ok (u, i, w, t) →
      0 ≤ u ∧ u ≤ 1 ∧ 0 ≤ i ∧ i ≤ 1 ∧ -1 ≤ w ∧ w ≤ 1 ∧ 0 ≤ t ∧ t ≤ 1) := by
  constructor
  · intro u i w t c
    exact ⟨clamp01_nonneg u, clamp01_le_one u, clamp01_nonneg i, clamp01_le_one i,
           clampSym_neg_one_le w, clampSym_le_one w, clamp01_nonneg t,
           clamp01_le_one t, clamp01_nonneg c, clamp01_le_one c⟩
  · intro packets u i w t h
    by_cases hne : packets = []
    · rw [hne] at h
      simp [benevolence_clamp] at h
    · rw [benevolence_clamp_eq packets hne] at h
      simp only [Except.ok.injEq, Prod.mk.injEq] at h
      obtain ⟨h1, h2, h3, h4⟩ := h
      rw [← h1, ← h2, ← h3, ← h4]
      exact ⟨clamp01_nonneg _, clamp01_le_one _, clamp01_nonneg _, clamp01_le_one _,
             clampSym_neg_one_le _, clampSym_le_one _, clamp01_nonneg _, clamp01_le_one _⟩

/-- C7 witness: construction clamps an out-of-range spine into range, and a
concrete fused output is in range. -/
theorem range_invariants_witness :
    spineInRange (IntentSpine.post_init 5 5 5 5 5) ∧
    (0 ≤ (0 : ℚ) ∧ (0 : ℚ) ≤ 1 ∧ 0 ≤ (0 : ℚ) ∧ (0 : ℚ) ≤ 1 ∧
     -1 ≤ (0.8 : ℚ) ∧ (0.8 : ℚ) ≤ 1 ∧ 0 ≤ (0.85 : ℚ) ∧ (0.85 : ℚ) ≤ 1) :=
  ⟨range_invariants.1 5 5 5 5 5,
   range_invariants.2 [("tone", mkTestPacket "tone" 0 0 0.8 0.9 "hi")] 0 0 0.8 0.85
     (by norm_num [benevolence_clamp, fusion_averages, mkTestPacket,
       IntentSpine.post_init, clamp01, clampSym])⟩

/-! ## Routing-layer lemmas -/

/-- `glyph_from_hash` succeeds with a 3-symbol glyph on every motif of at
least 17 bytes (so in particular on every real 32-byte digest). -/
lemma glyph_from_hash_long (motif : List Nat) (h : 17 ≤ motif.length) :
    ∃ g, glyph_from_hash motif = some g ∧ g.length = 3 := by
  simp only [glyph_from_hash]
  rw [if_neg (by omega)]
  rw [List.getElem?_eq_getElem (by omega), List.getElem?_eq_getElem (by omega),
      List.getElem?_eq_getElem (by omega)]
  exact ⟨_, rfl, rfl⟩

/-- `route_email` succeeds whenever the packet mapping is non-empty and the
combined motif is long enough for the glyph table reads. -/
lemma route_email_ok (packets : List (String × VSEPacket)) (md : EmailMetadata)
    (hne : packets ≠ [])
    (hlen : 17 ≤ ((packets.map (fun p => p.2.semantic_motif)).flatten.take 32).length) :
    ∃ a, route_email packets md = .ok a := by
  obtain ⟨g, hg, -⟩ := glyph_from_hash_long _ hlen
  rcases hval : route_email packets md with e | a
  · simp only [route_email, benevolence_clamp_eq packets hne, hg] at hval
    exact Except.noConfusion hval
  · exact ⟨a, rfl⟩

/-- The folder of a successful routing run is the benevolence override
applied to the threshold cascade's selection. -/
lemma route_email_folder (packets : List (String × VSEPacket)) (md : EmailMetadata)
    (u i w t : ℚ) (a : EmailAnalysis)
    (hc : benevolence_clamp packets = .ok (u, i, w, t))
    (hr : route_email packets md = .ok a) :
    a.routing_folder =
      apply_benevolence_override w (select_folder u i (is_newsletter packets md)) := by
  simp only [route_email, hc] at hr
  rcases hg : glyph_from_hash ((packets.map (fun p => p.2.semantic_motif)).flatten.take 32)
    with _ | g
  · rw [hg] at hr
    exact absurd hr (by simp)
  · rw [hg] at hr
    injection hr with h
    subst h
    rfl

/-! ## Claim theorems: routing -/

/-- C2: whenever the threshold cascade selects 5-Reference and the fused
warmth exceeds 0.6, the final routing folder is 3-Action-Required; when the
cascade selects anything other than 5-Reference, the override leaves the
selection unchanged (it can only upgrade 5-Reference to 3-Action-Required). -/
theorem benevolence_override_only_upgrades_reference
    (packets : List (String × VSEPacket)) (metadata : EmailMetadata)
    (u i w t : ℚ) (a : EmailAnalysis)
    (hc : benevolence_clamp packets = .ok (u, i, w, t))
    (hr : route_email packets metadata = .ok a) :
    (select_folder u i (is_newsletter packets metadata) = "5-Reference" → w > 0.6 →
      a.routing_folder = "3-Action-Required") ∧
    (select_folder u i (is_newsletter packets metadata) ≠ "5-Reference" →
      a.routing_folder = select_folder u i (is_newsletter packets metadata)) := by
  have hf := route_email_folder packets metadata u i w t a hc hr
  constructor
  · intro hsel hw
    rw [hf, hsel]
    simp only [apply_benevolence_override]
    rw [if_pos ⟨hw, trivial⟩]
  · intro hsel
    rw [hf]
    simp only [apply_benevolence_override]
    rw [if_neg (fun hcon => hsel hcon.2)]

/-- C2 witness: a lone warm packet (warmth 0.8, all thresholds idle) would
select 5-Reference and is upgraded to 3-Action-Required. -/
theorem benevolence_override_only_upgrades_reference_witness :
    ∃ a, route_email [("tone", mkTestPacket "tone" 0 0 0.8 0 "hello")] mdEmpty = .ok a ∧
      a.routing_folder = "3-Action-Required" := by
  have hne : ([("tone", mkTestPacket "tone" 0 0 0.8 0 "hello")] :
      List (String × VSEPacket)) ≠ [] := by simp
  have hlen : 17 ≤ ((([("tone", mkTestPacket "tone" 0 0 0.8 0 "hello")] :
      List (String × VSEPacket)).map (fun p => p.2.semantic_motif)).flatten.take 32).length := by
    simp [mkTestPacket, testMotif]
  obtain ⟨a, ha⟩ := route_email_ok _ mdEmpty hne hlen
  have hc : benevolence_clamp [("tone", mkTestPacket "tone" 0 0 0.8 0 "hello")] =
      .ok (0, 0, 0.8, 0) := by
    norm_num [benevolence_clamp, fusion_averages, mkTestPacket, IntentSpine.post_init,
      clamp01, clampSym]
  have hnl : is_newsletter [("tone", mkTestPacket "tone" 0 0 0.8 0 "hello")] mdEmpty = false := by
    decide
  have hsel : select_folder 0 0
      (is_newsletter [("tone", mkTestPacket "tone" 0 0 0.8 0 "hello")] mdEmpty) =
      "5-Reference" := by
    rw [hnl]
    norm_num [select_folder]
  exact ⟨a, ha,
    (benevolence_override_only_upgrades_reference _ mdEmpty 0 0 0.8 0 a hc ha).1 hsel
      (by norm_num)⟩

/-- C4: the cascade tests urgency before importance, so any input whose
fused urgency exceeds 0.7 and fused importance exceeds 0.6 selects and
routes to 1-URGENT-NOW. -/
theorem urgency_check_precedes_importance
    (packets : List (String × VSEPacket)) (metadata : EmailMetadata)
    (u i w t : ℚ) (a : EmailAnalysis)
    (hc : benevolence_clamp packets = .ok (u, i, w, t))
    (hu : u > 0.7) (hi : i > 0.6)
    (hr : route_email packets metadata = .ok a) :
    select_folder u i (is_newsletter packets metadata) = "1-URGENT-NOW" ∧
    a.routing_folder = "1-URGENT-NOW" := by
  have hsel : select_folder u i (is_newsletter packets metadata) = "1-URGENT-NOW" := by
    simp only [select_folder]
    rw [if_pos hu]
  refine ⟨hsel, ?_⟩
  rw [route_email_folder packets metadata u i w t a hc hr, hsel]
  simp only [apply_benevolence_override]
  rw [if_neg (by rintro ⟨-, hcon⟩; exact absurd hcon (by decide))]

/-- C4 witness: a packet with urgency 0.9 and importance 0.8 routes to
1-URGENT-NOW even though the importance threshold is also exceeded. -/
theorem urgency_check_precedes_importance_witness :
    ∃ a, route_email [("x", mkTestPacket "x" 0.9 0.8 0 0 "hello")] mdEmpty = .ok a ∧
      a.routing_folder = "1-URGENT-NOW" := by
  have hne : ([("x", mkTestPacket "x" 0.9 0.8 0 0 "hello")] :
      List (String × VSEPacket)) ≠ [] := by simp
  have hlen : 17 ≤ ((([("x", mkTestPacket "x" 0.9 0.8 0 0 "hello")] :
      List (String × VSEPacket)).map (fun p => p.2.semantic_motif)).flatten.take 32).length := by
    simp [mkTestPacket, testMotif]
  obtain ⟨a, ha⟩ := route_email_ok _ mdEmpty hne hlen
  have hc : benevolence_clamp [("x", mkTestPacket "x" 0.9 0.8 0 0 "hello")] =
      .ok (0.9, 0.8, 0, 0) := by
    norm_num [benevolence_clamp, fusion_averages, mkTestPacket, IntentSpine.post_init,
      clamp01, clampSym]
  exact ⟨a, ha,
    (urgency_check_precedes_importance _ mdEmpty 0.9 0.8 0 0 a hc (by norm_num)
      (by norm_num) ha).2⟩

/-- C9: the zero-padding fallback of `glyph_from_hash` is broken in the
source: a motif is padded only to 3 bytes while bytes 8 and 16 are then
read, so the empty digest (and any digest shorter than 17 bytes) raises
`IndexError` — modelled as `none` — instead of yielding a glyph; digests of
at least 17 bytes (in particular real 32-byte ones) do yield a 3-symbol
glyph. -/
theorem glyph_fallback_index_error :
    glyph_from_hash [] = none ∧
    glyph_from_hash (List.replicate 16 0) = none ∧
    ∃ g, glyph_from_hash (List.replicate 17 0) = some g ∧ g.length = 3 := by
  refine ⟨by decide, by decide, ?_⟩
  exact glyph_from_hash_long _ (by simp)

/-- C10: the embedded pipeline (five agents, then routing) is a function,
so two runs on the same `(text, metadata)` agree on every output, in
particular icon, gloss, routing folder and the four fused scores. -/
theorem pipeline_deterministic (text : String) (md : EmailMetadata) :
    process_core text md = process_core text md ∧
    ∀ a b : EmailAnalysis, process_core text md = .ok a → process_core text md = .ok b →
      a.icon = b.icon ∧ a.gloss = b.gloss ∧ a.routing_folder = b.routing_folder ∧
      a.urgency = b.urgency ∧ a.importance = b.importance ∧
      a.warmth = b.warmth ∧ a.tension = b.tension := by
  refine ⟨rfl, ?_⟩
  intro a b ha hb
  rw [ha] at hb
  injection hb with h
  subst h
  exact ⟨rfl, rfl, rfl, rfl, rfl, rfl, rfl⟩

/-- Every modelled digest is 32 bytes long. -/
lemma semantic_hash_length (t : String) : (semantic_hash t).length = 32 := by
  simp [semantic_hash]

/-- C10 witness: the pipeline succeeds on the empty message, and the two
(identical) runs agree on all reported fields. -/
theorem pipeline_deterministic_witness :
    ∃ a, process_core "" mdEmpty = .ok a ∧
      (a.icon = a.icon ∧ a.gloss = a.gloss ∧ a.routing_folder = a.routing_folder ∧
       a.urgency = a.urgency ∧ a.importance = a.importance ∧
       a.warmth = a.warmth ∧ a.tension = a.tension) := by
  have hne : analyze_email_agents "" mdEmpty ≠ [] := by
    simp [analyze_email_agents]
  have hlen : 17 ≤ (((analyze_email_agents "" mdEmpty).map
      (fun p => p.2.semantic_motif)).flatten.take 32).length := by
    simp [analyze_email_agents, semantic_hash_length, List.length_take]
  obtain ⟨a, ha⟩ := route_email_ok _ mdEmpty hne hlen
  exact ⟨a, ha, (pipeline_deterministic "" mdEmpty).2 a a ha ha⟩

/-! ## Warmth through the five-agent pipeline -/

/-- The tone agent's warmth score is always within [0,1]. -/
lemma analyze_tone_warmth_bounds (text : String) (md : EmailMetadata) :
    0 ≤ (analyze_tone text md).1 ∧ (analyze_tone text md).1 ≤ 1 := by
  unfold analyze_tone
  dsimp only
  split_ifs with hp
  · constructor
    · have h1 : (0 : ℚ) ≤
          ((WARMTH_INDICATORS.filter (fun i => strContains (lowerStr text) i)).length : ℚ) / 5 :=
        div_nonneg (Nat.cast_nonneg _) (by norm_num)
      have h2 : (0 : ℚ) ≤ min 1
          (((WARMTH_INDICATORS.filter (fun i => strContains (lowerStr text) i)).length : ℚ) / 5) :=
        le_min (by norm_num) h1
      exact le_min (by norm_num) (by linarith)
    · exact min_le_left _ _
  · constructor
    · exact le_min (by norm_num) (div_nonneg (Nat.cast_nonneg _) (by norm_num))
    · exact min_le_left _ _

/-- In the five-agent pipeline only the tone and action packets carry
warmth, both equal to the tone agent's score, so the fused warmth average
is exactly `2/5` of that score. -/
lemma fused_warmth_eq (text : String) (md : EmailMetadata) :
    (fusion_averages (analyze_email_agents text md)).2.2.1 =
      2 * (analyze_tone text md).1 / 5 := by
  obtain ⟨hb0, hb1⟩ := analyze_tone_warmth_bounds text md
  have h0 : clampSym 0 = 0 := by norm_num [clampSym]
  have hw : clampSym ((analyze_tone text md).1) = (analyze_tone text md).1 :=
    clampSym_eq_self (by linarith) hb1
  unfold fusion_averages analyze_email_agents
  simp only [IntentSpine.post_init, List.map_cons, List.map_nil, List.sum_cons,
    List.sum_nil, List.length_cons, List.length_nil, h0, hw]
  push_cast
  ring

/-- C3: for every input, the fused warmth of the full five-agent pipeline is
`2/5` of the tone agent's warmth score, hence at most 0.4; consequently the
`warmth > 0.6` conditions of the fusion-stage benevolence clamp and of the
routing-stage benevolence override are never satisfied. -/
theorem five_agent_fused_warmth_bounded (text : String) (md : EmailMetadata) :
    (fusion_averages (analyze_email_agents text md)).2.2.1 =
      2 * (analyze_tone text md).1 / 5 ∧
    (analyze_tone text md).1 ≤ 1 ∧
    (fusion_averages (analyze_email_agents text md)).2.2.1 ≤ 2 / 5 ∧
    ¬ (fusion_averages (analyze_email_agents text md)).2.2.1 > 0.6 ∧
    ∀ u i w t, benevolence_clamp (analyze_email_agents text md) = .ok (u, i, w, t) →
      w = (fusion_averages (analyze_email_agents text md)).2.2.1 ∧ ¬ w > 0.6 ∧
      ∀ folder, apply_benevolence_override w folder = folder := by
  obtain ⟨hb0, hb1⟩ := analyze_tone_warmth_bounds text md
  have heq := fused_warmth_eq text md
  have hle : (fusion_averages (analyze_email_agents text md)).2.2.1 ≤ 2 / 5 := by
    rw [heq]; linarith
  have hge : 0 ≤ (fusion_averages (analyze_email_agents text md)).2.2.1 := by
    rw [heq]; positivity
  refine ⟨heq, hb1, hle, by linarith, ?_⟩
  intro u i w t h
  have hne : analyze_email_agents text md ≠ [] := by
    unfold analyze_email_agents
    simp
  rw [benevolence_clamp_eq _ hne] at h
  simp only [Except.ok.injEq, Prod.mk.injEq] at h
  obtain ⟨-, -, h3, -⟩ := h
  have hwv : w = (fusion_averages (analyze_email_agents text md)).2.2.1 := by
    rw [← h3, clampSym_eq_self (by linarith) (by linarith)]
  refine ⟨hwv, by rw [hwv]; linarith, ?_⟩
  intro folder
  simp only [apply_benevolence_override]
  rw [if_neg (fun hcon => absurd hcon.1 (by rw [hwv]; push_neg; linarith))]

/-- C3 witness: on the empty message the pipeline's fused warmth satisfies
the never-boosted property concretely. -/
theorem five_agent_fused_warmth_bounded_witness :
    ∃ u i w t, benevolence_clamp (analyze_email_agents "" mdEmpty) = .ok (u, i, w, t) ∧
      ¬ w > 0.6 ∧ ∀ folder, apply_benevolence_override w folder = folder := by
  have hne : analyze_email_agents "" mdEmpty ≠ [] := by
    unfold analyze_email_agents
    simp
  have h := (five_agent_fused_warmth_bounded "" mdEmpty).2.2.2.2 _ _ _ _
    (benevolence_clamp_eq _ hne)
  exact ⟨_, _, _, _, benevolence_clamp_eq _ hne, h.2.1, h.2.2⟩

/-! ## Bulk-mail detection: substring-over-join lemmas -/

lemma containsL_nil_of_ne (n : List Char) (hne : n ≠ []) : containsL n [] = false := by
  rcases n with _ | ⟨c, n'⟩
  · exact absurd rfl hne
  · rfl

/-- A space-free needle matches at the start of `a ++ ' ' :: b` exactly when
it matches at the start of `a`. -/
lemma startsL_spaceless (n : List Char) :
    ' ' ∉ n → ∀ a b : List Char, startsL n (a ++ ' ' :: b) = startsL n a := by
  induction n with
  | nil => intro _ a b; rfl
  | cons c n' ih =>
    intro hn a b
    cases a with
    | nil =>
      have hc : c ≠ ' ' := fun h => hn (h ▸ List.mem_cons_self c n')
      simp [startsL, hc]
    | cons d a' =>
      show (decide (c = d) && startsL n' (a' ++ ' ' :: b)) = (decide (c = d) && startsL n' a')
      rw [ih (fun h => hn (List.mem_cons_of_mem c h)) a' b]

/-- A non-empty space-free needle occurs in `a ++ ' ' :: b` exactly when it
occurs in `a` or in `b`: a match cannot straddle the separator. -/
lemma containsL_append_space (n : List Char) (hne : n ≠ []) (hn : ' ' ∉ n) :
    ∀ a b : List Char, containsL n (a ++ ' ' :: b) = (containsL n a || containsL n b) := by
  intro a
  induction a with
  | nil =>
    intro b
    rcases n with _ | ⟨c, n'⟩
    · exact absurd rfl hne
    · have hc : c ≠ ' ' := fun h => hn (h ▸ List.mem_cons_self c n')
      simp [containsL, startsL, hc]
  | cons d a' ih =>
    intro b
    show (startsL n (d :: (a' ++ ' ' :: b)) || containsL n (a' ++ ' ' :: b)) =
      (containsL n (d :: a') || containsL n b)
    rw [show startsL n (d :: (a' ++ ' ' :: b)) = startsL n (d :: a') from
          startsL_spaceless n hn (d :: a') b,
        ih b,
        show containsL n (d :: a') = (startsL n (d :: a') || containsL n a') from rfl,
        Bool.or_assoc]

/-- A non-empty space-free needle occurs in the lowercased space-join of a
list of strings exactly when it occurs in the lowercasing of one of them. -/
lemma containsL_lower_joinSpace (n : List Char) (hne : n ≠ []) (hn : ' ' ∉ n) :
    ∀ gs : List String, containsL n (lowerStr (joinSpace gs)).data =
      gs.any (fun g => containsL n (lowerStr g).data) := by
  intro gs
  induction gs with
  | nil =>
    simp [joinSpace, lowerStr, containsL_nil_of_ne n hne]
  | cons g gs ih =>
    cases gs with
    | nil => simp [joinSpace]
    | cons g2 gs' =>
      have hsp : Char.toLower ' ' = ' ' := rfl
      have hdata : (lowerStr (joinSpace (g :: g2 :: gs'))).data =
          (lowerStr g).data ++ ' ' :: (lowerStr (joinSpace (g2 :: gs'))).data := by
        show (g ++ " " ++ joinSpace (g2 :: gs')).data.map Char.toLower = _
        rw [String.data_append, String.data_append]
        simp [lowerStr, hsp]
      rw [hdata, containsL_append_space n hne hn _ _, ih]
      simp

lemma any_map_general {α β : Type} (l : List α) (f : α → β) (p : β → Bool) :
    (l.map f).any p = l.any (fun x => p (f x)) := by
  induction l with
  | nil => rfl
  | cons a t ih => simp [ih]

lemma any_or_split {α : Type} (l : List α) (f g : α → Bool) :
    (l.any fun x => f x || g x) = (l.any f || l.any g) := by
  induction l with
  | nil => rfl
  | cons a t ih =>
    simp only [List.any_cons, ih]
    cases f a <;> cases g a <;> simp

/-! ## Claim C8 -/

/-- C8 counterexample: the sender `newsletter-weekly@example.com` has a
local part starting with "newsletter", so the claim requires bulk-mail
detection to be true, but the source's substring test
`'newsletter@' in sender` is false, so `route_email`'s detector rejects it;
the claimed characterisation is therefore false as stated. -/
theorem bulk_detect_claim_counterexample :
    is_newsletter [("tone", mkTestPacket "tone" 0 0 0 0 "x")] mdNewsletterDash = false ∧
    claimed_bulk_detect [("tone", mkTestPacket "tone" 0 0 0 0 "x")] mdNewsletterDash = true := by
  constructor
  · decide
  · decide

/-- C8 amended: bulk-mail detection in `route_email` is true exactly when
"newsletter" or "unsubscribe" occurs case-insensitively in some agent's
gloss, "digest" occurs in the subject, the subject contains both "weekly"
and "update", or the sender contains `"newsletter@"` or `"noreply@"` as a
case-insensitive substring. -/
theorem bulk_detect_matches_amended_claim (packets : List (String × VSEPacket))
    (metadata : EmailMetadata) :
    is_newsletter packets metadata = amended_bulk_detect packets metadata := by
  simp only [is_newsletter, amended_bulk_detect, strContains]
  rw [containsL_lower_joinSpace _ (by decide) (by decide) (packets.map (fun p => p.2.gloss)),
      containsL_lower_joinSpace _ (by decide) (by decide) (packets.map (fun p => p.2.gloss))]
  rw [any_map_general, any_map_general, any_or_split]

end Esper
